import Mathlib

/-!
Verification development for the ledger observability subsystem
(src/utils.h): severity-leveled logging with category filtering,
trace-depth gating, cumulative named timers, object/memory lifecycle
accounting, and the exception-buffer throw mechanism.

The gating macros (SHOW_DEBUG, SHOW_TRACE, SHOW_INFO, LOG_MACRO, DEBUG,
TRACE, the timer macros) and the inline functions category_matches and
throw_func / throw_ are embedded directly from src/utils.h.  The bodies
of logger_func, start_timer, stop_timer, finish_timer, trace_ctor_func
and trace_dtor_func are declared in src/utils.h but their definitions
are not part of src/; those are modelled from the specification and
marked as such in their doc comments.
-/

namespace LedgerSpec

/-- Severity levels, from src/utils.h lines 265-278 (`enum log_level_t`),
in source order: OFF, CRIT, FATAL, ASSERT, ERROR, VERIFY, WARN, INFO,
EXCEPT, DEBUG, TRACE, ALL. -/
inductive LogLevel where
  | LOG_OFF
  | LOG_CRIT
  | LOG_FATAL
  | LOG_ASSERT
  | LOG_ERROR
  | LOG_VERIFY
  | LOG_WARN
  | LOG_INFO
  | LOG_EXCEPT
  | LOG_DEBUG
  | LOG_TRACE
  | LOG_ALL
deriving DecidableEq

/-- The numeric value of each enumerator, exactly as assigned by the C
enum (LOG_OFF = 0, then successive increments). -/
def LogLevel.toNat : LogLevel → Nat
  | .LOG_OFF => 0
  | .LOG_CRIT => 1
  | .LOG_FATAL => 2
  | .LOG_ASSERT => 3
  | .LOG_ERROR => 4
  | .LOG_VERIFY => 5
  | .LOG_WARN => 6
  | .LOG_INFO => 7
  | .LOG_EXCEPT => 8
  | .LOG_DEBUG => 9
  | .LOG_TRACE => 10
  | .LOG_ALL => 11

/-- A named timer entry (spec §3 "Timer Entry"): the severity level
captured at first start, the cumulative elapsed duration, and the
optional running-since timestamp (present while active). -/
structure TimerEntry where
  level : LogLevel
  accrued : Nat
  running_since : Option Nat
deriving DecidableEq

/-- The process-wide logging state of src/utils.h: `_log_level`
(line 280), `_log_stream` (line 281, modelled as an optional list of
the lines written so far), `_log_buffer` (line 282), `_trace_level`
(line 291) and `_log_category` (line 309), together with the timer
table behind start_timer / stop_timer / finish_timer. -/
structure LogState where
  log_level : LogLevel
  log_stream : Option (List String)
  log_buffer : String
  trace_level : Nat
  log_category : Option String
  timers : List (String × TimerEntry)
deriving DecidableEq

/-- boost starts_with(input, test): `input` begins with `test`,
compared character by character, case-sensitive, anchored at
position 0. -/
def starts_with (input test : String) : Bool :=
  List.isPrefixOf test.data input.data

/-- src/utils.h lines 311-313: `category_matches(cat)` is true iff
`_log_category` holds a value and `cat` starts with it. -/
def category_matches (s : LogState) (cat : String) : Bool :=
  match s.log_category with
  | none => false
  | some filt => starts_with cat filt

/-- src/utils.h lines 315-316: `SHOW_DEBUG(cat)` is
`_log_level >= LOG_DEBUG && category_matches(cat)`. -/
def SHOW_DEBUG (s : LogState) (cat : String) : Bool :=
  decide (LogLevel.LOG_DEBUG.toNat ≤ s.log_level.toNat) && category_matches s cat

/-- src/utils.h lines 293-294: `SHOW_TRACE(lvl)` is
`_log_level >= LOG_TRACE && lvl <= _trace_level`. -/
def SHOW_TRACE (s : LogState) (lvl : Nat) : Bool :=
  decide (LogLevel.LOG_TRACE.toNat ≤ s.log_level.toNat) && decide (lvl ≤ s.trace_level)

/-- src/utils.h line 338: `SHOW_INFO()` is `_log_level >= LOG_INFO`. -/
def SHOW_INFO (s : LogState) : Bool :=
  decide (LogLevel.LOG_INFO.toNat ≤ s.log_level.toNat)

/-- Modelled from the spec: `is_enabled(level)` of §4.1 — true iff
`threshold() ≥ level` and the output destination is present.  The
source has no single function of this name; the destination check lives
in the body of `logger_func`, which is declared at src/utils.h line 284
but not defined under src/. -/
def is_enabled (s : LogState) (level : LogLevel) : Bool :=
  decide (level.toNat ≤ s.log_level.toNat) && s.log_stream.isSome

/-- Modelled from the spec: the user-facing label prefixed to an
emitted line (§4.2); its exact text is not fixed by the spec and no
claim depends on it. -/
def levelLabel (level : LogLevel) : String :=
  match level with
  | .LOG_OFF => "[OFF] "
  | .LOG_CRIT => "[CRIT] "
  | .LOG_FATAL => "[FATAL] "
  | .LOG_ASSERT => "[ASSERT] "
  | .LOG_ERROR => "[ERROR] "
  | .LOG_VERIFY => "[VERIFY] "
  | .LOG_WARN => "[WARN] "
  | .LOG_INFO => "[INFO] "
  | .LOG_EXCEPT => "[EXCEPT] "
  | .LOG_DEBUG => "[DEBUG] "
  | .LOG_TRACE => "[TRACE] "
  | .LOG_ALL => "[ALL] "

/-- Modelled from the spec: `logger_func` (the Message Sink's
`emit(level)`) is declared at src/utils.h line 284 but its body is not
under src/.  Per §4.2: if `is_enabled(level)` is false it clears
nothing and returns false; otherwise it writes the buffered text,
prefixed by the level's label, as one line to the output destination,
clears the buffer, and returns true (true iff a line was written). -/
def logger_func (s : LogState) (level : LogLevel) : Bool × LogState :=
  if is_enabled s level then
    (true,
      { s with
        log_stream := some ((s.log_stream.getD []) ++ [levelLabel level ++ s.log_buffer]),
        log_buffer := "" })
  else (false, s)

/-- src/utils.h lines 334-336, the LOG_MACRO macro:
`_log_level >= level ? ((_log_buffer << msg), logger_func(level)) : false`.
The message is formatted into the buffer only after the threshold
check passes. -/
def LOG_AT (s : LogState) (level : LogLevel) (msg : String) : Bool × LogState :=
  if level.toNat ≤ s.log_level.toNat then
    logger_func { s with log_buffer := s.log_buffer ++ msg } level
  else (false, s)

/-- src/utils.h lines 319-322, the DEBUG macro:
`SHOW_DEBUG(cat) ? ((_log_buffer << msg), logger_func(LOG_DEBUG)) : false`. -/
def DEBUG (s : LogState) (cat msg : String) : Bool × LogState :=
  if SHOW_DEBUG s cat then
    logger_func { s with log_buffer := s.log_buffer ++ msg } LogLevel.LOG_DEBUG
  else (false, s)

/-- src/utils.h lines 295-298, the TRACE macro:
`SHOW_TRACE(lvl) ? ((_log_buffer << msg), logger_func(LOG_TRACE)) : false`. -/
def TRACE (s : LogState) (lvl : Nat) (msg : String) : Bool × LogState :=
  if SHOW_TRACE s lvl then
    logger_func { s with log_buffer := s.log_buffer ++ msg } LogLevel.LOG_TRACE
  else (false, s)

/-- Replace the entry stored under `name` in the timer table. -/
def update_timer (ts : List (String × TimerEntry)) (name : String) (e : TimerEntry) :
    List (String × TimerEntry) :=
  ts.map (fun p => if p.1 = name then (name, e) else p)

/-- Modelled from the spec: `start_timer(name, lvl)` is declared at
src/utils.h line 395 but its body is not under src/.  Per §4.4: if the
timer is Idle (no entry), create an entry with the given level and zero
duration — skipped entirely when `is_enabled(lvl)` is false at the
moment of this first-ever start; if Paused, resume (level argument
ignored); if already Running, no-op. -/
def start_timer (s : LogState) (now : Nat) (name : String) (lvl : LogLevel) : LogState :=
  match List.lookup name s.timers with
  | none =>
    if is_enabled s lvl then
      { s with timers := (name, ⟨lvl, 0, some now⟩) :: s.timers }
    else s
  | some e =>
    match e.running_since with
    | some _ => s
    | none => { s with timers := update_timer s.timers name { e with running_since := some now } }

/-- Modelled from the spec: `stop_timer(name)` is declared at
src/utils.h line 396 but its body is not under src/.  Per §4.4: if
Running, add `now - running_since` to the cumulative duration and clear
running-since; if Idle or Paused, no-op. -/
def stop_timer (s : LogState) (now : Nat) (name : String) : LogState :=
  match List.lookup name s.timers with
  | none => s
  | some e =>
    match e.running_since with
    | none => s
    | some t0 =>
      { s with
        timers := update_timer s.timers name ⟨e.level, e.accrued + (now - t0), none⟩ }

/-- Modelled from the spec: human-readable duration text (§4.4); its
exact format is not fixed by the spec and no claim depends on it. -/
def formatDuration (d : Nat) : String :=
  toString d ++ "ms"

/-- Modelled from the spec: `finish_timer(name)` is declared at
src/utils.h line 397 but its body is not under src/.  Per §4.4: stop,
then format "name: duration" through the Sink at the entry's captured
level, then delete the entry; on a non-existent timer, a no-op that
emits nothing. -/
def finish_timer (s : LogState) (now : Nat) (name : String) : LogState :=
  match List.lookup name s.timers with
  | none => s
  | some _ =>
    let s1 := stop_timer s now name
    match List.lookup name s1.timers with
    | none => s1
    | some e =>
      let s2 := { s1 with log_buffer := s1.log_buffer ++ name ++ ": " ++ formatDuration e.accrued }
      let s3 := (logger_func s2 e.level).2
      { s3 with timers := s3.timers.filter (fun p => !(p.1 == name)) }

/-- src/utils.h lines 436-439, the INFO_START macro:
`SHOW_INFO() ? ((_log_buffer << msg), start_timer(name, LOG_INFO)) : void`. -/
def INFO_START (s : LogState) (now : Nat) (name msg : String) : LogState :=
  if SHOW_INFO s then
    start_timer { s with log_buffer := s.log_buffer ++ msg } now name LogLevel.LOG_INFO
  else s

/-- src/utils.h lines 440-441, the INFO_STOP macro:
`SHOW_INFO() ? stop_timer(name) : void`. -/
def INFO_STOP (s : LogState) (now : Nat) (name : String) : LogState :=
  if SHOW_INFO s then stop_timer s now name else s

/-- src/utils.h lines 442-443, the INFO_FINISH macro:
`SHOW_INFO() ? finish_timer(name) : void`. -/
def INFO_FINISH (s : LogState) (now : Nat) (name : String) : LogState :=
  if SHOW_INFO s then finish_timer s now name else s

/-- src/utils.h lines 400-403, the TRACE_START macro:
`SHOW_TRACE(lvl) ? ((_log_buffer << msg), start_timer(name, LOG_TRACE)) : void`. -/
def TRACE_START (s : LogState) (now lvl : Nat) (name msg : String) : LogState :=
  if SHOW_TRACE s lvl then
    start_timer { s with log_buffer := s.log_buffer ++ msg } now name LogLevel.LOG_TRACE
  else s

/-- src/utils.h lines 404-405, the TRACE_STOP macro:
`SHOW_TRACE(lvl) ? stop_timer(name) : void`. -/
def TRACE_STOP (s : LogState) (now lvl : Nat) (name : String) : LogState :=
  if SHOW_TRACE s lvl then stop_timer s now name else s

/-- src/utils.h lines 406-407, the TRACE_FINISH macro:
`SHOW_TRACE(lvl) ? finish_timer(name) : void`. -/
def TRACE_FINISH (s : LogState) (now lvl : Nat) (name : String) : LogState :=
  if SHOW_TRACE s lvl then finish_timer s now name else s

/-- A Tracked Object Record (spec §3): declared type name, byte size,
and the free-form construction-argument description. -/
structure TrackedRecord where
  cls_name : String
  cls_size : Nat
  args : String
deriving DecidableEq

/-- The single failure this core propagates: the duplicate-identity
bookkeeping error of §7 (a LedgerConsistencyError-class condition). -/
inductive LedgerError where
  | duplicateIdentity (identity : Nat)
deriving DecidableEq

/-- The Object/Memory Ledger: live Tracked Object Records keyed by
object identity (an opaque address-like token, modelled as Nat). -/
structure MemLedger where
  live : List (Nat × TrackedRecord)
deriving DecidableEq

/-- Modelled from the spec: `trace_ctor_func` (`record_construction`)
is declared at src/utils.h lines 161-162 but its body is not under
src/.  Per §4.5: inserts a new Tracked Object Record; fails with a
duplicate-identity error if the identity is already live. -/
def trace_ctor_func (m : MemLedger) (ptr : Nat) (cls_name args : String)
    (cls_size : Nat) : Except LedgerError MemLedger :=
  match List.lookup ptr m.live with
  | some _ => Except.error (LedgerError.duplicateIdentity ptr)
  | none => Except.ok { live := (ptr, ⟨cls_name, cls_size, args⟩) :: m.live }

/-- Modelled from the spec: `trace_dtor_func` (`record_destruction`)
is declared at src/utils.h line 163 but its body is not under src/.
Per §4.5: removes the record for the identity if present; if the
identity is not found, a tolerated no-op.  It never signals an error
(total function, no error result). -/
def trace_dtor_func (m : MemLedger) (ptr : Nat) (cls_name : String) (cls_size : Nat) :
    MemLedger :=
  { live := m.live.filter (fun p => !(ptr == p.1)) }

/-- Modelled from the spec: `current_memory_size` is declared at
src/utils.h line 158 but its body is not under src/.  Per §3 "Memory
Aggregate": total live bytes, the sum of the sizes of all current
records (derived, never independently settable). -/
def current_memory_size (m : MemLedger) : Nat :=
  (m.live.map (fun p => p.2.cls_size)).sum

/-- Modelled from the spec: `current_objects_size` is declared at
src/utils.h line 159 but its body is not under src/.  Per §3 "Memory
Aggregate": total live object count, one per current record. -/
def current_objects_size (m : MemLedger) : Nat :=
  m.live.length

/-- src/utils.h lines 475-479: `throw_func<T>(message)` sets
`_exc_buffer` to the empty string and then throws `T(message)`.  The
pair returned is (the thrown exception, the exception buffer as left
behind for the next throw). -/
def throw_func (T : Type) (mk : String → T) (buf message : String) : T × String :=
  (mk message, "")

/-- src/utils.h lines 481-482, the throw_ macro:
`(_exc_buffer << msg), throw_func<cls>(_exc_buffer.str())` — append
`msg` to the exception buffer, then throw with the buffer's accumulated
contents as the message. -/
def throw_ (T : Type) (mk : String → T) (buf msg : String) : T × String :=
  throw_func T mk (buf ++ msg) (buf ++ msg)

/-- The number of lines written so far to the output destination
(zero when the destination is absent). -/
def stream_lines (s : LogState) : Nat :=
  (s.log_stream.getD []).length

/-- Every string starts with the empty string: the zero-length category
filter matches any category. -/
theorem starts_with_empty (c : String) : starts_with c "" = true := by
  unfold starts_with
  show List.isPrefixOf ([] : List Char) c.data = true
  cases c.data <;> rfl

/-- C1: a category-gated (DEBUG) message with category `cat` passes the
debug gate — and the DEBUG macro then buffers and routes it to the sink
at LOG_DEBUG — iff the severity threshold is at least LOG_DEBUG, a
category filter has been configured, and `cat` starts with the
configured filter; in particular, with no category filter configured
the gate is false for every category, even at DEBUG threshold or
higher. -/
theorem C1_debug_gate (s : LogState) (cat msg : String) :
    (SHOW_DEBUG s cat = true ↔
      (LogLevel.LOG_DEBUG.toNat ≤ s.log_level.toNat ∧
        ∃ filt, s.log_category = some filt ∧ starts_with cat filt = true)) ∧
    (s.log_category = none → SHOW_DEBUG s cat = false) ∧
    (SHOW_DEBUG s cat = true →
      DEBUG s cat msg =
        logger_func { s with log_buffer := s.log_buffer ++ msg } LogLevel.LOG_DEBUG) ∧
    (SHOW_DEBUG s cat = false → DEBUG s cat msg = (false, s)) := by
  refine ⟨?_, ?_, ?_, ?_⟩
  · cases hc : s.log_category with
    | none => simp [SHOW_DEBUG, category_matches, hc]
    | some filt => simp [SHOW_DEBUG, category_matches, hc]
  · intro hc
    simp [SHOW_DEBUG, category_matches, hc]
  · intro hgate
    simp [DEBUG, hgate]
  · intro hgate
    simp [DEBUG, hgate]

/-- Witness for C1 at a concrete state: with threshold LOG_TRACE (which
is above DEBUG) and no category filter configured, the debug gate is
false. -/
theorem C1_debug_gate_witness :
    SHOW_DEBUG ⟨LogLevel.LOG_TRACE, some [], "", 0, none, []⟩ "validator" = false ∧
    DEBUG ⟨LogLevel.LOG_TRACE, some [], "", 0, none, []⟩ "validator" "m" =
      (false, ⟨LogLevel.LOG_TRACE, some [], "", 0, none, []⟩) :=
  ⟨(C1_debug_gate ⟨LogLevel.LOG_TRACE, some [], "", 0, none, []⟩ "validator" "m").2.1 rfl,
   (C1_debug_gate ⟨LogLevel.LOG_TRACE, some [], "", 0, none, []⟩ "validator" "m").2.2.2
     (by decide)⟩

/-- C2: is_enabled(level) is true iff the threshold is at least the
level and the output destination is present; when the destination is
absent, the sink is a no-op and LOG_MACRO emits nothing at any level,
whatever the threshold. -/
theorem C2_is_enabled_iff (s : LogState) (level : LogLevel) (msg : String) :
    (is_enabled s level = true ↔
      (level.toNat ≤ s.log_level.toNat ∧ s.log_stream.isSome = true)) ∧
    (s.log_stream = none →
      logger_func s level = (false, s) ∧
      (LOG_AT s level msg).1 = false ∧
      (LOG_AT s level msg).2.log_stream = none) := by
  refine ⟨?_, ?_⟩
  · simp [is_enabled]
  · intro hnone
    have hen : is_enabled s level = false := by
      simp [is_enabled, hnone]
    refine ⟨by simp [logger_func, hen], ?_, ?_⟩
    · by_cases hle : level.toNat ≤ s.log_level.toNat
      · simp [LOG_AT, hle, logger_func, is_enabled, hnone]
      · simp [LOG_AT, hle]
    · by_cases hle : level.toNat ≤ s.log_level.toNat
      · simp [LOG_AT, hle, logger_func, is_enabled, hnone]
      · simp [LOG_AT, hle, hnone]

/-- Witness for C2 at a concrete state: destination absent, threshold
LOG_ALL — the sink still refuses to emit. -/
theorem C2_is_enabled_iff_witness :
    logger_func ⟨LogLevel.LOG_ALL, none, "", 0, none, []⟩ LogLevel.LOG_ERROR =
      (false, ⟨LogLevel.LOG_ALL, none, "", 0, none, []⟩) ∧
    (LOG_AT ⟨LogLevel.LOG_ALL, none, "", 0, none, []⟩ LogLevel.LOG_ERROR "boom").1 = false :=
  ⟨((C2_is_enabled_iff ⟨LogLevel.LOG_ALL, none, "", 0, none, []⟩ LogLevel.LOG_ERROR
      "boom").2 rfl).1,
   ((C2_is_enabled_iff ⟨LogLevel.LOG_ALL, none, "", 0, none, []⟩ LogLevel.LOG_ERROR
      "boom").2 rfl).2.1⟩

/-- C3: a TRACE message at depth d passes the trace gate — and the
TRACE macro then buffers it and requests emission at LOG_TRACE — iff
the threshold is at least LOG_TRACE and d is at most the configured
trace-depth limit. -/
theorem C3_trace_gate (s : LogState) (d : Nat) (msg : String) :
    (SHOW_TRACE s d = true ↔
      (LogLevel.LOG_TRACE.toNat ≤ s.log_level.toNat ∧ d ≤ s.trace_level)) ∧
    (SHOW_TRACE s d = true →
      TRACE s d msg =
        logger_func { s with log_buffer := s.log_buffer ++ msg } LogLevel.LOG_TRACE) ∧
    (SHOW_TRACE s d = false → TRACE s d msg = (false, s)) := by
  refine ⟨?_, ?_, ?_⟩
  · simp [SHOW_TRACE]
  · intro hgate
    simp [TRACE, hgate]
  · intro hgate
    simp [TRACE, hgate]

/-- Witness for C3 at a concrete state: threshold LOG_TRACE, trace
limit 2 — depth 2 passes the gate and the message is buffered and
emitted; the directly computed result agrees. -/
theorem C3_trace_gate_witness :
    TRACE ⟨LogLevel.LOG_TRACE, some [], "abc", 2, none, []⟩ 2 "def" =
      logger_func ⟨LogLevel.LOG_TRACE, some [], "abcdef", 2, none, []⟩
        LogLevel.LOG_TRACE :=
  (C3_trace_gate ⟨LogLevel.LOG_TRACE, some [], "abc", 2, none, []⟩ 2 "def").2.1 (by decide)

/-- C4: the severity order is OFF < CRIT < FATAL < ASSERT < ERROR <
VERIFY < WARN < INFO < EXCEPT < DEBUG < TRACE < ALL, and eligibility is
monotone: with threshold L1, a message at any L2 above L1 is never
emitted (LOG_MACRO returns false and changes nothing), while a message
at any level at most L1 is emitted when the output destination is
present. -/
theorem C4_severity_monotonicity (s : LogState) (L1 L2 L : LogLevel) (msg : String) :
    (LogLevel.LOG_OFF.toNat < LogLevel.LOG_CRIT.toNat ∧
      LogLevel.LOG_CRIT.toNat < LogLevel.LOG_FATAL.toNat ∧
      LogLevel.LOG_FATAL.toNat < LogLevel.LOG_ASSERT.toNat ∧
      LogLevel.LOG_ASSERT.toNat < LogLevel.LOG_ERROR.toNat ∧
      LogLevel.LOG_ERROR.toNat < LogLevel.LOG_VERIFY.toNat ∧
      LogLevel.LOG_VERIFY.toNat < LogLevel.LOG_WARN.toNat ∧
      LogLevel.LOG_WARN.toNat < LogLevel.LOG_INFO.toNat ∧
      LogLevel.LOG_INFO.toNat < LogLevel.LOG_EXCEPT.toNat ∧
      LogLevel.LOG_EXCEPT.toNat < LogLevel.LOG_DEBUG.toNat ∧
      LogLevel.LOG_DEBUG.toNat < LogLevel.LOG_TRACE.toNat ∧
      LogLevel.LOG_TRACE.toNat < LogLevel.LOG_ALL.toNat) ∧
    (s.log_level = L1 → L1.toNat < L2.toNat → LOG_AT s L2 msg = (false, s)) ∧
    (s.log_level = L1 → L.toNat ≤ L1.toNat → s.log_stream.isSome = true →
      (LOG_AT s L msg).1 = true) := by
  refine ⟨by decide, ?_, ?_⟩
  · intro hs hlt
    have hnot : ¬ L2.toNat ≤ s.log_level.toNat := by
      rw [hs]; omega
    simp [LOG_AT, hnot]
  · intro hs hle hsome
    have hgate : L.toNat ≤ s.log_level.toNat := by
      rw [hs]; exact hle
    simp [LOG_AT, hgate, logger_func, is_enabled, hsome]

/-- Witness for C4 at a concrete state: threshold LOG_WARN with a
destination present — a LOG_INFO message (INFO > WARN) is suppressed
with no state change, while a LOG_ERROR message (ERROR ≤ WARN) is
emitted. -/
theorem C4_severity_monotonicity_witness :
    LOG_AT ⟨LogLevel.LOG_WARN, some [], "", 0, none, []⟩ LogLevel.LOG_INFO "x" =
      (false, ⟨LogLevel.LOG_WARN, some [], "", 0, none, []⟩) ∧
    (LOG_AT ⟨LogLevel.LOG_WARN, some [], "", 0, none, []⟩ LogLevel.LOG_ERROR "x").1 = true :=
  ⟨(C4_severity_monotonicity ⟨LogLevel.LOG_WARN, some [], "", 0, none, []⟩
      LogLevel.LOG_WARN LogLevel.LOG_INFO LogLevel.LOG_ERROR "x").2.1 rfl (by decide),
   (C4_severity_monotonicity ⟨LogLevel.LOG_WARN, some [], "", 0, none, []⟩
      LogLevel.LOG_WARN LogLevel.LOG_INFO LogLevel.LOG_ERROR "x").2.2 rfl (by decide) rfl⟩

/-- C5: category matching is case-sensitive anchored prefix matching:
with filter "val" and threshold at least DEBUG, "validator" passes
the debug gate and "other" does not; with the empty filter configured
(and threshold at least DEBUG), every category passes. -/
theorem C5_category_matching (s : LogState) (c : String) :
    (s.log_category = some "val" → LogLevel.LOG_DEBUG.toNat ≤ s.log_level.toNat →
      SHOW_DEBUG s "validator" = true ∧ SHOW_DEBUG s "other" = false) ∧
    (s.log_category = some "" → LogLevel.LOG_DEBUG.toNat ≤ s.log_level.toNat →
      SHOW_DEBUG s c = true) := by
  constructor
  · intro hc hl
    constructor
    · simp [SHOW_DEBUG, category_matches, hc, hl]
      decide
    · simp [SHOW_DEBUG, category_matches, hc, hl]
      decide
  · intro hc hl
    simp [SHOW_DEBUG, category_matches, hc, hl, starts_with_empty]

/-- Witness for C5 at concrete states: filter "val" at DEBUG threshold
distinguishes "validator" from "other"; the empty filter admits an
arbitrary category. -/
theorem C5_category_matching_witness :
    (SHOW_DEBUG ⟨LogLevel.LOG_DEBUG, none, "", 0, some "val", []⟩ "validator" = true ∧
      SHOW_DEBUG ⟨LogLevel.LOG_DEBUG, none, "", 0, some "val", []⟩ "other" = false) ∧
    SHOW_DEBUG ⟨LogLevel.LOG_DEBUG, none, "", 0, some "", []⟩ "anything" = true :=
  ⟨(C5_category_matching ⟨LogLevel.LOG_DEBUG, none, "", 0, some "val", []⟩
      "anything").1 rfl (by decide),
   (C5_category_matching ⟨LogLevel.LOG_DEBUG, none, "", 0, some "", []⟩
      "anything").2 rfl (by decide)⟩

/-- C6 counterexample: with threshold LOG_INFO and the output
destination absent, is_enabled(LOG_INFO) is false, yet LOG_MACRO at
LOG_INFO still formats the message into the pending buffer — the
observable state changes, refuting the claim that a disabled emission
leaves all observable state unchanged and never formats the message. -/
theorem C6_counterexample :
    is_enabled ⟨LogLevel.LOG_INFO, none, "", 0, none, []⟩ LogLevel.LOG_INFO = false ∧
    (LOG_AT ⟨LogLevel.LOG_INFO, none, "", 0, none, []⟩ LogLevel.LOG_INFO "x").1 = false ∧
    (LOG_AT ⟨LogLevel.LOG_INFO, none, "", 0, none, []⟩ LogLevel.LOG_INFO "x").2 ≠
      ⟨LogLevel.LOG_INFO, none, "", 0, none, []⟩ ∧
    (LOG_AT ⟨LogLevel.LOG_INFO, none, "", 0, none, []⟩
      LogLevel.LOG_INFO "x").2.log_buffer = "x" := by
  decide

/-- C6 as amended: if the threshold is below the level, LOG_MACRO
returns false, changes nothing, and never formats the message; whenever
is_enabled(level) is false, emission returns false, nothing is written
to the output destination, and the buffer is not cleared (it is either
untouched or has the freshly formatted message appended); emission
returns true only when a line was written. -/
theorem C6_amended_no_emit (s : LogState) (level : LogLevel) (msg : String) :
    (s.log_level.toNat < level.toNat → LOG_AT s level msg = (false, s)) ∧
    (is_enabled s level = false →
      (LOG_AT s level msg).1 = false ∧
      (LOG_AT s level msg).2.log_stream = s.log_stream ∧
      ((LOG_AT s level msg).2.log_buffer = s.log_buffer ∨
        (LOG_AT s level msg).2.log_buffer = s.log_buffer ++ msg)) ∧
    ((LOG_AT s level msg).1 = true →
      stream_lines (LOG_AT s level msg).2 = stream_lines s + 1) := by
  refine ⟨?_, ?_, ?_⟩
  · intro hlt
    have hnot : ¬ level.toNat ≤ s.log_level.toNat := Nat.not_le.mpr hlt
    simp [LOG_AT, hnot]
  · intro hdis
    by_cases hle : level.toNat ≤ s.log_level.toNat
    · have hdis2 : (s.log_stream.isSome = true) → False := by
        intro hs
        simp [is_enabled, hle, hs] at hdis
      cases hs : s.log_stream with
      | some lines => exact absurd (by simp [hs]) hdis2
      | none => simp [LOG_AT, hle, logger_func, is_enabled, hs]
    · simp [LOG_AT, hle]
  · intro htrue
    by_cases hle : level.toNat ≤ s.log_level.toNat
    · by_cases hen : is_enabled { s with log_buffer := s.log_buffer ++ msg } level = true
      · have hs : s.log_stream.isSome = true := by
          simpa [is_enabled, hle] using hen
        cases hstream : s.log_stream with
        | none => simp [hstream] at hs
        | some lines =>
          simp [LOG_AT, hle, logger_func, is_enabled, hstream, stream_lines]
      · rw [LOG_AT, if_pos hle, logger_func, if_neg hen] at htrue
        exact absurd htrue (by simp)
    · rw [LOG_AT, if_neg hle] at htrue
      exact absurd htrue (by simp)

/-- Witness for C6 as amended, at concrete states: a below-threshold
message changes nothing; with the destination absent the emission
reports false and writes nothing; a successful emission writes exactly
one line. -/
theorem C6_amended_no_emit_witness :
    LOG_AT ⟨LogLevel.LOG_WARN, some [], "", 0, none, []⟩ LogLevel.LOG_INFO "x" =
      (false, ⟨LogLevel.LOG_WARN, some [], "", 0, none, []⟩) ∧
    (LOG_AT ⟨LogLevel.LOG_ALL, none, "", 0, none, []⟩ LogLevel.LOG_WARN "y").1 = false ∧
    stream_lines (LOG_AT ⟨LogLevel.LOG_WARN, some [], "", 0, none, []⟩
      LogLevel.LOG_WARN "z").2 = stream_lines ⟨LogLevel.LOG_WARN, some [], "", 0, none, []⟩ + 1 :=
  ⟨(C6_amended_no_emit ⟨LogLevel.LOG_WARN, some [], "", 0, none, []⟩
      LogLevel.LOG_INFO "x").1 (by decide),
   ((C6_amended_no_emit ⟨LogLevel.LOG_ALL, none, "", 0, none, []⟩
      LogLevel.LOG_WARN "y").2.1 (by decide)).1,
   (C6_amended_no_emit ⟨LogLevel.LOG_WARN, some [], "", 0, none, []⟩
      LogLevel.LOG_WARN "z").2.2 (by decide)⟩

/-- C7 counterexample: with threshold LOG_INFO and the output
destination absent, is_enabled(LOG_INFO) is false and the timer "t" has
never been started, yet INFO_START still appends the message text to
the pending buffer (no timer entry is created, but the state changes) —
refuting the claim that the start is skipped entirely with no message
text buffered and no other state changes. -/
theorem C7_counterexample :
    is_enabled ⟨LogLevel.LOG_INFO, none, "", 0, none, []⟩ LogLevel.LOG_INFO = false ∧
    List.lookup "t" (⟨LogLevel.LOG_INFO, none, "", 0, none, []⟩ : LogState).timers = none ∧
    (INFO_START ⟨LogLevel.LOG_INFO, none, "", 0, none, []⟩ 0 "t" "m").timers = [] ∧
    (INFO_START ⟨LogLevel.LOG_INFO, none, "", 0, none, []⟩ 0 "t" "m").log_buffer = "m" ∧
    INFO_START ⟨LogLevel.LOG_INFO, none, "", 0, none, []⟩ 0 "t" "m" ≠
      ⟨LogLevel.LOG_INFO, none, "", 0, none, []⟩ := by
  decide

/-- C7 as amended: a first-ever timer start creates no timer entry when
is_enabled(level) is false at the moment of the call, and the start,
stop and finish macros do nothing at all when their severity/trace gate
is false; however, when the gate passes but only the output destination
is absent, the start macro still appends its message text to the
pending buffer even though no timer entry is created. -/
theorem C7_amended_timer_gating (s : LogState) (now d : Nat) (name msg : String) :
    (SHOW_INFO s = false →
      INFO_START s now name msg = s ∧ INFO_STOP s now name = s ∧
        INFO_FINISH s now name = s) ∧
    (List.lookup name s.timers = none → is_enabled s LogLevel.LOG_INFO = false →
      (INFO_START s now name msg).timers = s.timers) ∧
    (SHOW_TRACE s d = false →
      TRACE_START s now d name msg = s ∧ TRACE_STOP s now d name = s ∧
        TRACE_FINISH s now d name = s) ∧
    (List.lookup name s.timers = none → is_enabled s LogLevel.LOG_TRACE = false →
      (TRACE_START s now d name msg).timers = s.timers) := by
  refine ⟨?_, ?_, ?_, ?_⟩
  · intro hgate
    exact ⟨by simp [INFO_START, hgate], by simp [INFO_STOP, hgate],
      by simp [INFO_FINISH, hgate]⟩
  · intro hlk hdis
    by_cases hgate : SHOW_INFO s = true
    · have hnc : ¬ (LogLevel.LOG_INFO.toNat ≤ s.log_level.toNat ∧
          s.log_stream.isSome = true) := by
        intro hc
        have hon : is_enabled s LogLevel.LOG_INFO = true := by
          simp [is_enabled, hc.1, hc.2]
        rw [hon] at hdis
        exact absurd hdis (by simp)
      simp [INFO_START, hgate, start_timer, hlk, is_enabled, hnc]
    · simp [INFO_START, hgate]
  · intro hgate
    exact ⟨by simp [TRACE_START, hgate], by simp [TRACE_STOP, hgate],
      by simp [TRACE_FINISH, hgate]⟩
  · intro hlk hdis
    by_cases hgate : SHOW_TRACE s d = true
    · have hnc : ¬ (LogLevel.LOG_TRACE.toNat ≤ s.log_level.toNat ∧
          s.log_stream.isSome = true) := by
        intro hc
        have hon : is_enabled s LogLevel.LOG_TRACE = true := by
          simp [is_enabled, hc.1, hc.2]
        rw [hon] at hdis
        exact absurd hdis (by simp)
      simp [TRACE_START, hgate, start_timer, hlk, is_enabled, hnc]
    · simp [TRACE_START, hgate]

/-- Witness for C7 as amended, at concrete states: below the INFO
threshold the start/stop/finish macros change nothing; with the
destination absent a first-ever INFO start creates no timer entry. -/
theorem C7_amended_timer_gating_witness :
    INFO_START ⟨LogLevel.LOG_WARN, some [], "", 0, none, []⟩ 5 "t" "m" =
      ⟨LogLevel.LOG_WARN, some [], "", 0, none, []⟩ ∧
    (INFO_START ⟨LogLevel.LOG_INFO, none, "", 0, none, []⟩ 5 "t" "m").timers = [] ∧
    TRACE_FINISH ⟨LogLevel.LOG_DEBUG, some [], "", 3, none, []⟩ 5 1 "t" =
      ⟨LogLevel.LOG_DEBUG, some [], "", 3, none, []⟩ :=
  ⟨((C7_amended_timer_gating ⟨LogLevel.LOG_WARN, some [], "", 0, none, []⟩
      5 1 "t" "m").1 (by decide)).1,
   (C7_amended_timer_gating ⟨LogLevel.LOG_INFO, none, "", 0, none, []⟩
      5 1 "t" "m").2.1 (by decide) (by decide),
   ((C7_amended_timer_gating ⟨LogLevel.LOG_DEBUG, some [], "", 3, none, []⟩
      5 1 "t" "m").2.2.1 (by decide)).2.2⟩

/-- C8: constructing a record for an identity that is already live
signals the duplicate-identity bookkeeping error rather than silently
overwriting; in particular a second record_construction for the same
identity right after a successful first one fails this way, and the
duplicate-identity error is the only error record_construction can
signal (record_destruction and the aggregate reads are total functions
with no error result). -/
theorem C8_duplicate_identity (m m2 : MemLedger) (idn n1 n2 : Nat)
    (c1 a1 c2 a2 : String) :
    ((List.lookup idn m.live).isSome = true →
      trace_ctor_func m idn c1 a1 n1 =
        Except.error (LedgerError.duplicateIdentity idn)) ∧
    (trace_ctor_func m idn c1 a1 n1 = Except.ok m2 →
      trace_ctor_func m2 idn c2 a2 n2 =
        Except.error (LedgerError.duplicateIdentity idn)) ∧
    (∀ e, trace_ctor_func m idn c1 a1 n1 = Except.error e →
      e = LedgerError.duplicateIdentity idn ∧ (List.lookup idn m.live).isSome = true) := by
  cases hlk : List.lookup idn m.live with
  | some r =>
    refine ⟨fun _ => by simp [trace_ctor_func, hlk], fun h => ?_, fun e he => ?_⟩
    · simp [trace_ctor_func, hlk] at h
    · simp [trace_ctor_func, hlk] at he
      exact ⟨he.symm, by simp [hlk]⟩
  | none =>
    refine ⟨fun hlive => ?_, fun h => ?_, fun e he => ?_⟩
    · exact absurd hlive (by simp)
    · have hm2 : m2 = ⟨(idn, ⟨c1, n1, a1⟩) :: m.live⟩ := by
        simp [trace_ctor_func, hlk] at h
        exact h.symm
      subst hm2
      simp [trace_ctor_func, List.lookup]
    · simp [trace_ctor_func, hlk] at he

/-- Witness for C8 at a concrete ledger: constructing identity 42 on an
empty ledger succeeds, and repeating it without an intervening
destruction signals the duplicate-identity error. -/
theorem C8_duplicate_identity_witness :
    trace_ctor_func ⟨[(42, ⟨"Amount", 24, "a"⟩)]⟩ 42 "Amount" "a" 24 =
      Except.error (LedgerError.duplicateIdentity 42) :=
  (C8_duplicate_identity ⟨[]⟩ ⟨[(42, ⟨"Amount", 24, "a"⟩)]⟩ 42 24 24
    "Amount" "a" "Amount" "a").2.1 rfl

/-- Destroying an identity that does not occur in the live list removes
nothing: every entry survives the filter. -/
theorem lookup_none_filter (ptr : Nat) :
    ∀ l : List (Nat × TrackedRecord), List.lookup ptr l = none →
      l.filter (fun p => !(ptr == p.1)) = l := by
  intro l
  induction l with
  | nil => intro _; rfl
  | cons hd tl ih =>
    intro h
    obtain ⟨k, v⟩ := hd
    cases hk : (ptr == k) with
    | true => simp [List.lookup, hk] at h
    | false =>
      rw [List.lookup] at h
      rw [hk] at h
      simp [List.filter, hk, ih h]

/-- C9: record_destruction for an identity with no live record is a
tolerated no-op: the ledger is unchanged, and so are current_bytes and
current_count. -/
theorem C9_untracked_destruction (m : MemLedger) (ptr n : Nat) (cls : String)
    (h : List.lookup ptr m.live = none) :
    trace_dtor_func m ptr cls n = m ∧
    current_memory_size (trace_dtor_func m ptr cls n) = current_memory_size m ∧
    current_objects_size (trace_dtor_func m ptr cls n) = current_objects_size m := by
  have hfix : trace_dtor_func m ptr cls n = m := by
    unfold trace_dtor_func
    rw [lookup_none_filter ptr m.live h]
  exact ⟨hfix, by rw [hfix], by rw [hfix]⟩

/-- Witness for C9 at a concrete ledger: destroying the never-tracked
identity 99 leaves the one live record and both aggregates unchanged. -/
theorem C9_untracked_destruction_witness :
    trace_dtor_func ⟨[(7, ⟨"Amount", 24, "a"⟩)]⟩ 99 "Posting" 16 =
      ⟨[(7, ⟨"Amount", 24, "a"⟩)]⟩ ∧
    current_memory_size (trace_dtor_func ⟨[(7, ⟨"Amount", 24, "a"⟩)]⟩ 99 "Posting" 16) =
      current_memory_size ⟨[(7, ⟨"Amount", 24, "a"⟩)]⟩ :=
  ⟨(C9_untracked_destruction ⟨[(7, ⟨"Amount", 24, "a"⟩)]⟩ 99 16 "Posting" (by decide)).1,
   (C9_untracked_destruction ⟨[(7, ⟨"Amount", 24, "a"⟩)]⟩ 99 16 "Posting" (by decide)).2.1⟩

/-- C10: the throw_ mechanism appends the message to the shared
exception buffer, throws an exception of the requested class carrying
the buffer's accumulated contents as its message, and leaves the buffer
empty; hence a successive throw carries exactly its own message with no
stale text concatenated. -/
theorem C10_throw_resets_buffer (T : Type) (mk : String → T) (buf msg msg2 : String) :
    throw_ T mk buf msg = (mk (buf ++ msg), "") ∧
    throw_ T mk (throw_ T mk buf msg).2 msg2 = (mk msg2, "") :=
  ⟨rfl, rfl⟩

end LedgerSpec
